import Mathlib

/-!
Shallow embedding of `src/connector.py` (a Fivetran custom connector that
syncs news articles and enriches them with linguistic-analysis scores).

Modelling conventions:
* Timestamps are modelled as their already-`strftime`-formatted strings
  (format `%Y-%m-%dT%H:%M:%S`); Python compares such strings
  lexicographically by code point, modelled by `pyLt`/`pyMin` below.
* JSON numbers returned by the enrichment service are modelled as `Int`
  (only their presence/absence matters to the connector).
* External effects (the Snowflake destination, the news API, the
  enrichment API, the clock) are supplied as oracle values/functions in a
  `World` structure; the connector's behaviour is a pure function of them.
* Python exceptions are modelled with `Except`/`Option PyError`; a raised
  exception carries a message and a `traceback.format_exc()` trace string.
* The generator `update` is modelled as returning the list of events it
  yielded before returning or raising, paired with the raised error if any.
-/

namespace Connector

/-- Numeric values from the enrichment service (floats in the source;
only presence matters here). -/
abbrev Score := Int

/-- A Python exception: its message (`str(e)`) and its
`traceback.format_exc()` rendering. -/
structure PyError where
  msg : String
  trace : String
deriving DecidableEq, Repr

/-- `TS_FORMAT` from the source. -/
def TS_FORMAT : String := "%Y-%m-%dT%H:%M:%S"

/-- `BASE_API_URL` from the source. -/
def BASE_API_URL : String := "https://newsapi.org/v2/everything"

/-- `TL_URL` from the source. -/
def TL_URL : String := "https://app.tabulalingua.com/v0/standard/"

/-- The `data.document` object of an enrichment-service response.
`blue`/`red` are `none` when the corresponding JSON key is absent
(`tl_data[...]` would raise `KeyError`); `p_values` is the array under the
`p_values` key (an absent key behaves like an empty array: the first
subscript raises either way, after `blue`/`red` were already assigned). -/
structure TLDoc where
  blue : Option Score
  red : Option Score
  p_values : List Score
deriving DecidableEq, Repr

/-- Outcome of `requests.post(TL_URL, ...)` followed by
`raise_for_status()` and `json()["data"]["document"]`, keyed by the text
sent. All failure variants raise before any field of `data` is assigned. -/
inductive TLCall where
  /-- `requests.post` itself raised (network error). -/
  | netError (e : PyError)
  /-- `tl_response.raise_for_status()` raised (non-2xx status). -/
  | httpError (e : PyError)
  /-- `json()` failed or the `data`/`document` keys were missing. -/
  | badShape (e : PyError)
  /-- The call produced a document object. -/
  | ok (doc : TLDoc)
deriving DecidableEq, Repr

/-- One element of the news API's `articles` array. Keys are present
(the connector indexes them unconditionally); values may be JSON `null`,
modelled as `none`. -/
structure RawArticle where
  source_name : Option String
  publishedAt : Option String
  author : Option String
  title : Option String
  description : Option String
  content : Option String
  url : Option String
deriving DecidableEq, Repr

/-- The `data` dict built per article in `sync_items`: seven base content
fields plus `topic`, and the ten enrichment fields, absent (`none`) unless
assigned by the enrichment block. -/
structure ArticleData where
  topic : String
  source : Option String
  published_at : Option String
  author : Option String
  title : Option String
  description : Option String
  content : Option String
  url : Option String
  blue : Option Score := none
  red : Option Score := none
  p0 : Option Score := none
  p1 : Option Score := none
  p2 : Option Score := none
  p3 : Option Score := none
  p4 : Option Score := none
  p5 : Option Score := none
  p6 : Option Score := none
  p7 : Option Score := none
deriving DecidableEq, Repr

/-- Lines 157-166: the initial `data` dict for one raw article. -/
def mkData (topic : String) (a : RawArticle) : ArticleData :=
  { topic := topic
    source := a.source_name
    published_at := a.publishedAt
    author := a.author
    title := a.title
    description := a.description
    content := a.content
    url := a.url }

/-- Python `str.strip()`: drop leading and trailing whitespace (defined
over the character list so that it evaluates by kernel reduction). -/
def pyStrip (s : String) : String :=
  ⟨((s.data.dropWhile Char.isWhitespace).reverse.dropWhile
      Char.isWhitespace).reverse⟩

/-- Lines 183-192: the sequential assignment of the enrichment fields onto
`data`, in source order. Each step reads one key/index of the response
document; a missing key or a too-short `p_values` array raises there,
which the surrounding `except` catches — so the assignments made before
the failing step are kept (the dict is mutated in place). -/
def applyDoc (doc : TLDoc) (d : ArticleData) : ArticleData :=
  match doc.blue with
  | none => d
  | some b =>
    let d := { d with blue := some b }
    match doc.red with
    | none => d
    | some r =>
      let d := { d with red := some r }
      match doc.p_values[0]? with
      | none => d
      | some v0 =>
        let d := { d with p0 := some v0 }
        match doc.p_values[1]? with
        | none => d
        | some v1 =>
          let d := { d with p1 := some v1 }
          match doc.p_values[2]? with
          | none => d
          | some v2 =>
            let d := { d with p2 := some v2 }
            match doc.p_values[3]? with
            | none => d
            | some v3 =>
              let d := { d with p3 := some v3 }
              match doc.p_values[4]? with
              | none => d
              | some v4 =>
                let d := { d with p4 := some v4 }
                match doc.p_values[5]? with
                | none => d
                | some v5 =>
                  let d := { d with p5 := some v5 }
                  match doc.p_values[6]? with
                  | none => d
                  | some v6 =>
                    let d := { d with p6 := some v6 }
                    match doc.p_values[7]? with
                    | none => d
                    | some v7 => { d with p7 := some v7 }

/-- Lines 171-203: the per-article enrichment block (`try`/`except`).
Every failure path returns `d` as mutated so far; nothing propagates:
* `conf["TABULA_KEY"]` raises `KeyError` when the key is absent — caught;
* `data.get("content").strip()` raises `AttributeError` when `content` is
  `None` — caught;
* blank stripped content raises `ValueError` — caught;
* the call outcomes `netError`/`httpError`/`badShape` raise before any
  assignment — caught;
* a successful call applies `applyDoc` (which keeps partial assignments
  when the document is malformed, the exception again being caught). -/
def enrichArticle (tabulaKey : Option String) (tl : String → TLCall)
    (d : ArticleData) : ArticleData :=
  match tabulaKey with
  | none => d
  | some _ =>
    match d.content with
    | none => d
    | some c =>
      let content := pyStrip c
      if content = "" then d
      else
        match tl content with
        | .netError _ => d
        | .httpError _ => d
        | .badShape _ => d
        | .ok doc => applyDoc doc d

/-- The Snowflake cursor returned by `cnx.cursor().execute(q)`.
`rows` are the result rows of `select max(published_at) from article`
(the single value is `NULL` on an empty table, else the max datetime,
modelled by its `TS_FORMAT` rendering). -/
structure SnowCursor where
  rows : List (Option String)
deriving DecidableEq, Repr

/-- The destination side of the world: either opening the connection
raises, or it succeeds and the query yields a cursor. -/
inductive SnowWorld where
  /-- `snowflake.connector.connect(...)` raised (line 62, outside the
  `try` block). -/
  | connectFail (e : PyError)
  /-- The connection opened; executing the max-watermark query returns
  this cursor. -/
  | connected (cur : SnowCursor)
deriving DecidableEq, Repr

/-- Modelled library semantics: `snowflake-connector-python`'s
`SnowflakeCursor` supports iteration and `fetchone`/`fetchall` but defines
no `__getitem__`, so subscripting it (line 74: `...execute(q)[0]`) raises
`TypeError` regardless of the query's result rows. -/
def cursorGetitem (_cur : SnowCursor) (_i : Nat) :
    Except PyError (Option String) :=
  .error { msg := "SnowflakeCursor object is not subscriptable"
           trace := "TypeError" }

/-- Lines 59-80, `get_last_published_at`. The `connect` call sits outside
the `try`, so a connection failure propagates; inside the `try`, the
cursor subscript's failure is swallowed by the bare `except`, leaving
`result = None`. -/
def get_last_published_at (snow : SnowWorld) : Except PyError (Option String) :=
  match snow with
  | .connectFail e => .error e
  | .connected cur =>
    let result : Option String :=
      match cursorGetitem cur 0 with
      | .ok v => v
      | .error _ => none
    match result with
    | none => .ok none
    | some dt => .ok (some dt)

/-- The query-parameter dict built at lines 114-122 (the source dict
literal repeats `"page": "1"`; in Python the later duplicate wins and both
are `"1"`, so it is modelled once) and mutated per topic at line 132
(`params["q"] = topic`, the only key ever reassigned). -/
structure Params where
  «from» : String
  «to» : String
  page : String
  language : String
  sortBy : String
  pageSize : String
  q : Option String
deriving DecidableEq, Repr

/-- The request headers built at lines 124-127. -/
structure Headers where
  authorization : String
  accept : String
deriving DecidableEq, Repr

/-- The Fivetran run state, a string-keyed dict (`state` / `new_state`). -/
abbrev StateMap := List (String × String)

/-- Python `state.get(key)`. -/
def dictGet (st : StateMap) (k : String) : Option String :=
  (st.find? (fun kv => kv.1 = k)).map (fun kv => kv.2)

/-- The observable events of a run: each `requests.get` issued against the
news API, and each operation yielded to the host (`op.upsert`,
`op.checkpoint`). -/
inductive Event where
  | apiRequest (url : String) (headers : Headers) (params : Params)
  | upsert (table : String) (data : ArticleData)
  | checkpoint (state : StateMap)
deriving DecidableEq, Repr

/-- Outcome of `requests.get(BASE_API_URL, ...)` followed by
`response.json().get("articles")`, as a function of the request params. -/
inductive FetchResult where
  /-- `requests.get` or `response.json()` raised (network error or a body
  that is not JSON). -/
  | fail (e : PyError)
  /-- The body parsed; `articles` is `.get("articles")` — `none` when the
  key is absent (e.g. the API's non-success error body), in which case the
  `for` loop over `None` raises `TypeError`. -/
  | body (articles : Option (List RawArticle))
deriving DecidableEq, Repr

/-- The `TypeError` raised by `for article in None` when the response body
has no `articles` key. -/
def typeErrorNoneIterable : PyError :=
  { msg := "argument of type NoneType is not iterable"
    trace := "TypeError" }

/-- Lines 149-207, `sync_items`: issue the request, then (on success) one
upsert per article — every article passes through the enrichment block,
whose failures never propagate — followed by the intermediate checkpoint
carrying the `state` argument unchanged. A request/parse failure raises
before anything is yielded. (The `headers` reassignment at line 179
shadows the parameter after the one `requests.get`, so it has no effect on
the fetch.) Returns the yielded events and the raised error, if any. -/
def sync_items (fetch : Params → FetchResult) (headers : Headers)
    (params : Params) (state : StateMap) (topic : String)
    (tabulaKey : Option String) (tl : String → TLCall) :
    List Event × Option PyError :=
  let req := Event.apiRequest BASE_API_URL headers params
  match fetch params with
  | .fail e => ([req], some e)
  | .body none => ([req], some typeErrorNoneIterable)
  | .body (some articles) =>
    (req ::
      (articles.map (fun a =>
        Event.upsert "article" (enrichArticle tabulaKey tl (mkData topic a))))
      ++ [Event.checkpoint state], none)

/-- The configuration keys the connector reads. `TABULA_KEY` is optional
because its lookup happens inside the enrichment `try` block (a missing
key is caught there); the others are read unconditionally. -/
structure Conf where
  TOPIC : String
  PAGE_SIZE : String
  NEWS_API_KEY : String
  TABULA_KEY : Option String

/-- The external world of one run: destination, news API, enrichment API,
and the clock — `now` is `datetime.now(UTC).strftime(TS_FORMAT)` and
`safety` is `(now - INIT_DELTA).strftime(TS_FORMAT)` (two days earlier). -/
structure World where
  snow : SnowWorld
  fetch : Params → FetchResult
  tl : String → TLCall
  now : String
  safety : String

/-- Python `<` on strings: lexicographic comparison of the code-point
sequences (a strict prefix is smaller). -/
def lexLt : List Char → List Char → Bool
  | [], [] => false
  | [], _ :: _ => true
  | _ :: _, [] => false
  | a :: as, b :: bs =>
    if a < b then true else if b < a then false else lexLt as bs

/-- Python `a < b` on strings. -/
def pyLt (a b : String) : Bool := lexLt a.data b.data

/-- Python `a <= b` on strings. -/
def pyLe (a b : String) : Bool := !(pyLt b a)

/-- Python `min(a, b)`: the second argument only replaces the running
minimum when strictly smaller. -/
def pyMin (a b : String) : String := if pyLt b a then b else a

/-- Python `min(iterable)` over strings; `none` models the `ValueError`
raised on an empty sequence. -/
def pyMinList : List String → Option String
  | [] => none
  | x :: xs => some (xs.foldl pyMin x)

/-- Python `s.split(",")` (single-character separator): worker over the
character list. -/
def splitCommaAux : List Char → List Char → List String
  | [], acc => [⟨acc.reverse⟩]
  | c :: cs, acc =>
    if c = ',' then ⟨acc.reverse⟩ :: splitCommaAux cs []
    else splitCommaAux cs (c :: acc)

/-- Python `s.split(",")`; the empty string yields `[""]`. -/
def pySplitComma (s : String) : List String := splitCommaAux s.data []

/-- Python truthiness filter `filter(None, start_options)` on optional
strings: drops `None` and the empty string. -/
def pyFilterNone (xs : List (Option String)) : List String :=
  (xs.filterMap id).filter (fun s => s ≠ "")

/-- Line 108: `min(filter(None, start_options))`. -/
def query_start_of (opts : List (Option String)) : Option String :=
  pyMinList (pyFilterNone opts)

/-- Lines 100-111: the query window. First component is `query_start`
(minimum of the truthy candidates), second is `query_end` (the run-start
time, already formatted). -/
def resolveWindow (to_ts last_published_at : Option String)
    (safety now : String) : Option String × String :=
  (query_start_of [to_ts, last_published_at, some safety], now)

/-- The `ValueError` from `min()` on an empty sequence (unreachable in
practice: the safety fallback is a nonempty formatted timestamp). -/
def valueErrorEmptyMin : PyError :=
  { msg := "min() arg is an empty sequence", trace := "ValueError" }

/-- The params dict as built at lines 114-122 (before the per-topic
`q` assignment). -/
def mkParams (conf : Conf) (query_start query_end : String) : Params :=
  { «from» := query_start
    «to» := query_end
    page := "1"
    language := "en"
    sortBy := "publishedAt"
    pageSize := conf.PAGE_SIZE
    q := none }

/-- Line 132: `params["q"] = topic`. -/
def topicParams (base : Params) (topic : String) : Params :=
  { base with q := some topic }

/-- The headers dict of lines 124-127. -/
def mkHeaders (conf : Conf) : Headers :=
  { authorization := "Bearer " ++ conf.NEWS_API_KEY
    accept := "application/json" }

/-- Lines 136-143: the orchestrator's `except` wraps any exception from
the topic loop in a `RuntimeError` whose message carries the original
message and the full stack trace. -/
def wrapRuntimeError (e : PyError) : PyError :=
  { msg := "Error Message: " ++ e.msg ++ "\nStack Trace:\n" ++ e.trace
    trace := e.trace }

/-- Lines 131-133: the `for topic in topics` loop, `yield from
sync_items(...)` per topic; an exception aborts the loop, keeping the
events already yielded. -/
def runTopics (fetch : Params → FetchResult) (headers : Headers)
    (base : Params) (state : StateMap) (tabulaKey : Option String)
    (tl : String → TLCall) : List String → List Event × Option PyError
  | [] => ([], none)
  | t :: ts =>
    match sync_items fetch headers (topicParams base t) state t tabulaKey tl with
    | (evs, some e) => (evs, some e)
    | (evs, none) =>
      let rest := runTopics fetch headers base state tabulaKey tl ts
      (evs ++ rest.1, rest.2)

/-- Lines 92-146, `update`: resolve the window (the destination lookup and
the `min` happen before the `try`, so their failures propagate unwrapped),
run the topic loop (whose failures are wrapped in a `RuntimeError`), and
on success yield the final checkpoint with the fresh state
`{"to_ts": params["to"]}` — `params["to"]` is never reassigned, so it is
`query_end`. Returns the yielded events and the raised error, if any. -/
def update (conf : Conf) (state : StateMap) (w : World) :
    List Event × Option PyError :=
  let from_ts := dictGet state "to_ts"
  match get_last_published_at w.snow with
  | .error e => ([], some e)
  | .ok last_published_at =>
    match resolveWindow from_ts last_published_at w.safety w.now with
    | (none, _) => ([], some valueErrorEmptyMin)
    | (some query_start, query_end) =>
      let params := mkParams conf query_start query_end
      let headers := mkHeaders conf
      let topics := pySplitComma conf.TOPIC
      match runTopics w.fetch headers params state conf.TABULA_KEY w.tl topics with
      | (evs, some e) => (evs, some (wrapRuntimeError e))
      | (evs, none) =>
        let new_state : StateMap := [("to_ts", params.«to»)]
        (evs ++ [Event.checkpoint new_state], none)

/-- The `data` payloads of the upsert events of a trace. -/
def upsertDatas (evs : List Event) : List ArticleData :=
  evs.filterMap (fun e =>
    match e with
    | .upsert _ d => some d
    | _ => none)

/-- The states carried by the checkpoint events of a trace. -/
def checkpointStates (evs : List Event) : List StateMap :=
  evs.filterMap (fun e =>
    match e with
    | .checkpoint s => some s
    | _ => none)

/-- The params of the news-API requests issued in a trace. -/
def requestParams (evs : List Event) : List Params :=
  evs.filterMap (fun e =>
    match e with
    | .apiRequest _ _ p => some p
    | _ => none)

/-- All ten enrichment fields are present. -/
def hasAllEnrichment (d : ArticleData) : Bool :=
  d.blue.isSome && d.red.isSome && d.p0.isSome && d.p1.isSome &&
  d.p2.isSome && d.p3.isSome && d.p4.isSome && d.p5.isSome &&
  d.p6.isSome && d.p7.isSome

/-- None of the ten enrichment fields is present. -/
def hasNoEnrichment (d : ArticleData) : Bool :=
  d.blue.isNone && d.red.isNone && d.p0.isNone && d.p1.isNone &&
  d.p2.isNone && d.p3.isNone && d.p4.isNone && d.p5.isNone &&
  d.p6.isNone && d.p7.isNone

/-- A response document that cannot break off mid-assignment: `blue` and
`red` keys present and at least 8 `p_values`. -/
def completeDoc (doc : TLDoc) : Bool :=
  doc.blue.isSome && doc.red.isSome && decide (8 ≤ doc.p_values.length)

/-- Whether a fetch outcome raises, and with which error. -/
def fetchError (r : FetchResult) : Option PyError :=
  match r with
  | .fail e => some e
  | .body none => some typeErrorNoneIterable
  | .body (some _) => none

/-- The spec's own description of `query_start`: the minimum of the
non-null candidates (to be compared with the code's `query_start_of`,
which additionally drops empty strings, by Python truthiness). -/
def specQueryStart (to_ts last_published_at : Option String)
    (safety : String) : Option String :=
  pyMinList (([to_ts, last_published_at, some safety]).filterMap id)

/-! Concrete fixtures used to evaluate the definitions on closed inputs. -/

/-- A two-topic configuration. -/
def demoConf : Conf :=
  { TOPIC := "economy,sports"
    PAGE_SIZE := "100"
    NEWS_API_KEY := "nk"
    TABULA_KEY := some "tk" }

/-- A well-formed enrichment document (both scores, 8 p-values). -/
def demoDoc : TLDoc :=
  { blue := some 1, red := some 2, p_values := [3, 4, 5, 6, 7, 8, 9, 10] }

/-- A raw article with nonblank content. -/
def demoArticle : RawArticle :=
  { source_name := some "s"
    publishedAt := some "2024-01-09T00:00:00"
    author := some "a"
    title := some "t"
    description := some "d"
    content := some "body text"
    url := some "u" }

/-- A raw article whose content is whitespace only. -/
def blankArticle : RawArticle :=
  { demoArticle with content := some " " }

/-- A prior state carrying `to_ts` and an extra key. -/
def demoState : StateMap :=
  [("to_ts", "2024-01-09T06:00:00"), ("other", "x")]

/-- A world in which everything succeeds. -/
def demoWorld : World :=
  { snow := .connected { rows := [some "2024-01-09T00:00:00"] }
    fetch := fun _ => .body (some [demoArticle])
    tl := fun _ => .ok demoDoc
    now := "2024-01-10T12:00:00"
    safety := "2024-01-08T12:00:00" }

/-- The network error of the failing-fetch fixtures. -/
def c4FailErr : PyError :=
  { msg := "Connection aborted"
    trace := "requests.exceptions.ConnectionError" }

/-- A world in which the news-API request for the second topic
(`sports`) fails while the first (`economy`) succeeds. -/
def c4World : World :=
  { snow := .connected { rows := [] }
    fetch := fun p =>
      if p.q = some "economy" then .body (some []) else .fail c4FailErr
    tl := fun _ => .ok demoDoc
    now := "2024-01-10T12:00:00"
    safety := "2024-01-08T12:00:00" }

/-- The connection failure of the C5 fixture. -/
def c5ConnectError : PyError :=
  { msg := "250001 (08001): Failed to connect to DB"
    trace := "snowflake.connector.errors.OperationalError" }

/-- A world in which opening the destination connection raises. -/
def c5World : World :=
  { snow := .connectFail c5ConnectError
    fetch := fun _ => .body (some [demoArticle])
    tl := fun _ => .ok demoDoc
    now := "2024-01-10T12:00:00"
    safety := "2024-01-08T12:00:00" }

/-- An enrichment document with both scores present but only three
p-values (a malformed response shape). -/
def shortDoc : TLDoc :=
  { blue := some 1, red := some 2, p_values := [3, 4, 5] }

/-- An enrichment oracle that always answers with `shortDoc`. -/
def shortDocTl : String → TLCall := fun _ => .ok shortDoc

/-- The record emitted for `demoArticle` when the enrichment service
answers with the short document. -/
def shortDocData : ArticleData :=
  enrichArticle (some "tk") shortDocTl (mkData "economy" demoArticle)

/-- The trace of a one-article `sync_items` run against the short
document. -/
def shortDocEvents : List Event :=
  (sync_items (fun _ => .body (some [demoArticle]))
    (mkHeaders demoConf)
    (topicParams (mkParams demoConf "2024-01-08T12:00:00" "2024-01-10T12:00:00") "economy")
    demoState "economy" (some "tk") shortDocTl).1

/-- An enrichment oracle for the C2 batch: blank text never reaches it;
any other text gets the complete document. -/
def c2Tl : String → TLCall := fun _ => .ok demoDoc

/-- A three-article batch whose middle article has blank content. -/
def c2Articles : List RawArticle := [demoArticle, blankArticle, demoArticle]

/-- One table definition returned by the `schema` operation. -/
structure TableSchema where
  table : String
  primary_key : List String
  columns : List (String × String)
deriving DecidableEq, Repr

/-- Lines 23-54, `schema`: the explicit destination schema (the
`configuration` argument is unused by the source too). -/
def schema (_configuration : Conf) : List TableSchema :=
  [{ table := "article"
     primary_key := ["source", "published_at"]
     columns :=
       [("source", "STRING"),
        ("published_at", "UTC_DATETIME"),
        ("author", "STRING"),
        ("title", "STRING"),
        ("description", "STRING"),
        ("content", "STRING"),
        ("url", "STRING"),
        ("blue", "FLOAT"),
        ("red", "FLOAT"),
        ("p0", "FLOAT"),
        ("p1", "FLOAT"),
        ("p2", "FLOAT"),
        ("p3", "FLOAT"),
        ("p4", "FLOAT"),
        ("p5", "FLOAT"),
        ("p6", "FLOAT"),
        ("p7", "FLOAT")] }]

/-- The keys of the emitted `data` dict, in insertion order: the eight
unconditional keys, then whichever enrichment keys were assigned. -/
def dataKeys (d : ArticleData) : List String :=
  ["topic", "source", "published_at", "author", "title", "description",
   "content", "url"] ++
  (if d.blue.isSome then ["blue"] else []) ++
  (if d.red.isSome then ["red"] else []) ++
  (if d.p0.isSome then ["p0"] else []) ++
  (if d.p1.isSome then ["p1"] else []) ++
  (if d.p2.isSome then ["p2"] else []) ++
  (if d.p3.isSome then ["p3"] else []) ++
  (if d.p4.isSome then ["p4"] else []) ++
  (if d.p5.isSome then ["p5"] else []) ++
  (if d.p6.isSome then ["p6"] else []) ++
  (if d.p7.isSome then ["p7"] else [])

/-- The record of one upsert emitted by the all-success demo run. -/
def c10Data : ArticleData :=
  enrichArticle (some "tk") (fun _ => TLCall.ok demoDoc)
    (mkData "economy" demoArticle)

/-! Helper lemmas about the trace extractors. -/

@[simp]
theorem upsertDatas_nil : upsertDatas [] = [] := rfl

@[simp]
theorem upsertDatas_append (l₁ l₂ : List Event) :
    upsertDatas (l₁ ++ l₂) = upsertDatas l₁ ++ upsertDatas l₂ :=
  List.filterMap_append l₁ l₂ _

@[simp]
theorem upsertDatas_cons_request (u : String) (h : Headers) (p : Params)
    (l : List Event) :
    upsertDatas (Event.apiRequest u h p :: l) = upsertDatas l := rfl

@[simp]
theorem upsertDatas_cons_upsert (t : String) (d : ArticleData)
    (l : List Event) :
    upsertDatas (Event.upsert t d :: l) = d :: upsertDatas l := rfl

@[simp]
theorem upsertDatas_cons_checkpoint (s : StateMap) (l : List Event) :
    upsertDatas (Event.checkpoint s :: l) = upsertDatas l := rfl

@[simp]
theorem upsertDatas_map_upsert (t : String) (f : RawArticle → ArticleData)
    (l : List RawArticle) :
    upsertDatas (l.map (fun a => Event.upsert t (f a))) = l.map f := by
  induction l with
  | nil => rfl
  | cons a l ih => simp [ih]

@[simp]
theorem checkpointStates_nil : checkpointStates [] = [] := rfl

@[simp]
theorem checkpointStates_append (l₁ l₂ : List Event) :
    checkpointStates (l₁ ++ l₂) =
      checkpointStates l₁ ++ checkpointStates l₂ :=
  List.filterMap_append l₁ l₂ _

@[simp]
theorem checkpointStates_cons_request (u : String) (h : Headers)
    (p : Params) (l : List Event) :
    checkpointStates (Event.apiRequest u h p :: l) = checkpointStates l := rfl

@[simp]
theorem checkpointStates_cons_upsert (t : String) (d : ArticleData)
    (l : List Event) :
    checkpointStates (Event.upsert t d :: l) = checkpointStates l := rfl

@[simp]
theorem checkpointStates_cons_checkpoint (s : StateMap) (l : List Event) :
    checkpointStates (Event.checkpoint s :: l) = s :: checkpointStates l := rfl

@[simp]
theorem checkpointStates_map_upsert (t : String)
    (f : RawArticle → ArticleData) (l : List RawArticle) :
    checkpointStates (l.map (fun a => Event.upsert t (f a))) = [] := by
  induction l with
  | nil => rfl
  | cons a l ih => simp [ih]

@[simp]
theorem requestParams_nil : requestParams [] = [] := rfl

@[simp]
theorem requestParams_append (l₁ l₂ : List Event) :
    requestParams (l₁ ++ l₂) = requestParams l₁ ++ requestParams l₂ :=
  List.filterMap_append l₁ l₂ _

@[simp]
theorem requestParams_cons_request (u : String) (h : Headers) (p : Params)
    (l : List Event) :
    requestParams (Event.apiRequest u h p :: l) = p :: requestParams l := rfl

@[simp]
theorem requestParams_cons_upsert (t : String) (d : ArticleData)
    (l : List Event) :
    requestParams (Event.upsert t d :: l) = requestParams l := rfl

@[simp]
theorem requestParams_cons_checkpoint (s : StateMap) (l : List Event) :
    requestParams (Event.checkpoint s :: l) = requestParams l := rfl

@[simp]
theorem requestParams_map_upsert (t : String)
    (f : RawArticle → ArticleData) (l : List RawArticle) :
    requestParams (l.map (fun a => Event.upsert t (f a))) = [] := by
  induction l with
  | nil => rfl
  | cons a l ih => simp [ih]

/-! Claim theorems. -/

/-- C9: whenever the destination connection opens successfully,
`get_last_published_at` returns `None` regardless of the table's
contents — the query result is read by subscripting the cursor object,
which raises and is swallowed by the bare `except`, so the
destination-max candidate is never non-null. -/
theorem c9_destination_lookup_always_none (cur : SnowCursor) :
    get_last_published_at (SnowWorld.connected cur) = Except.ok none := rfl

/-- C5 counterexample: the claim says the destination-max lookup never
raises, including on a connectivity failure when opening the connection;
but `connect` sits outside the `try` block, so a connection failure
propagates out of `get_last_published_at` and aborts the run before any
event is yielded. -/
theorem c5_counterexample :
    get_last_published_at (SnowWorld.connectFail c5ConnectError) =
      Except.error c5ConnectError ∧
    update demoConf demoState c5World = ([], some c5ConnectError) :=
  ⟨rfl, rfl⟩

/-- C5 amended: once the destination connection has been opened, the
watermark lookup never raises — every failure inside the query (cursor
subscripting, empty table, parse) is swallowed by the bare `except` and
the candidate degrades to null; only a failure opening the connection
itself aborts the run. -/
theorem c5_lookup_tolerant_after_connect (cur : SnowCursor) :
    (get_last_published_at (SnowWorld.connected cur)).isOk = true := rfl

/-- Python string comparison is irreflexive. -/
theorem lexLt_irrefl : ∀ l : List Char, lexLt l l = false := by
  intro l
  induction l with
  | nil => rfl
  | cons c cs ih => simp [lexLt, lt_irrefl, ih]

/-- Python `<=` on strings is reflexive. -/
theorem pyLe_refl (a : String) : pyLe a a = true := by
  simp [pyLe, pyLt, lexLt_irrefl]

/-- Python `min` never exceeds its second argument. -/
theorem pyMin_le_right (a b : String) : pyLe (pyMin a b) b = true := by
  unfold pyMin
  cases h : pyLt b a with
  | true => simp [h, pyLe_refl]
  | false => simp [h, pyLe]

/-- C1: `query_start` is the minimum of the non-null window candidates
(prior `to_ts`, destination max, and the always-present 2-day fallback),
`query_end` is the run-start time, and `query_start` never exceeds the
fallback. Candidates are well-formed (hence nonempty) timestamp strings,
compared as Python compares them (lexicographically by code point). -/
theorem c1_window_correctness (to_ts last_published_at : Option String)
    (safety now : String) (hts : to_ts ≠ some "")
    (hlp : last_published_at ≠ some "") (hs : safety ≠ "") :
    (resolveWindow to_ts last_published_at safety now).1 =
      specQueryStart to_ts last_published_at safety ∧
    (resolveWindow to_ts last_published_at safety now).2 = now ∧
    ∀ q, (resolveWindow to_ts last_published_at safety now).1 = some q →
      pyLe q safety = true := by
  have hfil : pyFilterNone [to_ts, last_published_at, some safety] =
      [to_ts, last_published_at, some safety].filterMap id := by
    apply List.filter_eq_self.mpr
    intro x hx
    rw [List.mem_filterMap] at hx
    obtain ⟨a, ha, hax⟩ := hx
    simp only [List.mem_cons, List.not_mem_nil, or_false] at ha
    have hxne : x ≠ "" := by
      rcases ha with rfl | rfl | rfl
      · intro h0; exact hts (by simpa [h0] using hax)
      · intro h0; exact hlp (by simpa [h0] using hax)
      · intro h0
        apply hs
        have : safety = x := by simpa using hax
        rw [this, h0]
    exact decide_eq_true hxne
  refine ⟨?_, rfl, ?_⟩
  · simp only [resolveWindow, query_start_of, hfil, specQueryStart]
  · intro q hq
    simp only [resolveWindow, query_start_of, hfil] at hq
    cases to_ts with
    | none =>
      cases last_published_at with
      | none =>
        simp only [List.filterMap_cons, id, List.filterMap_nil,
          pyMinList, List.foldl, Option.some.injEq] at hq
        rw [← hq]
        exact pyLe_refl safety
      | some b =>
        simp only [List.filterMap_cons, id, List.filterMap_nil,
          pyMinList, List.foldl, Option.some.injEq] at hq
        rw [← hq]
        exact pyMin_le_right b safety
    | some a =>
      cases last_published_at with
      | none =>
        simp only [List.filterMap_cons, id, List.filterMap_nil,
          pyMinList, List.foldl, Option.some.injEq] at hq
        rw [← hq]
        exact pyMin_le_right a safety
      | some b =>
        simp only [List.filterMap_cons, id, List.filterMap_nil,
          pyMinList, List.foldl, Option.some.injEq] at hq
        rw [← hq]
        exact pyMin_le_right (pyMin a b) safety

/-- Witness for C1: prior state present, destination max absent; the
start is the prior `to_ts` (it precedes the fallback) and is bounded by
the fallback. -/
theorem c1_window_correctness_witness :
    (some "2024-01-05T00:00:00" ≠ some ("" : String)) ∧
    ((none : Option String) ≠ some "") ∧
    ("2024-01-08T12:00:00" ≠ "") ∧
    ((resolveWindow (some "2024-01-05T00:00:00") none
        "2024-01-08T12:00:00" "2024-01-10T12:00:00").1 =
      specQueryStart (some "2024-01-05T00:00:00") none
        "2024-01-08T12:00:00" ∧
    (resolveWindow (some "2024-01-05T00:00:00") none
        "2024-01-08T12:00:00" "2024-01-10T12:00:00").2 =
      "2024-01-10T12:00:00" ∧
    ∀ q, (resolveWindow (some "2024-01-05T00:00:00") none
        "2024-01-08T12:00:00" "2024-01-10T12:00:00").1 = some q →
      pyLe q "2024-01-08T12:00:00" = true) :=
  ⟨by decide, by decide, by decide,
    c1_window_correctness (some "2024-01-05T00:00:00") none
      "2024-01-08T12:00:00" "2024-01-10T12:00:00"
      (by decide) (by decide) (by decide)⟩

/-- The initial `data` dict carries no enrichment fields. -/
theorem hasNoEnrichment_mkData (topic : String) (a : RawArticle) :
    hasNoEnrichment (mkData topic a) = true := rfl

/-- A complete response document enriches every field. -/
theorem applyDoc_complete (doc : TLDoc) (d : ArticleData)
    (h : completeDoc doc = true) :
    hasAllEnrichment (applyDoc doc d) = true := by
  unfold completeDoc at h
  simp only [Bool.and_eq_true, decide_eq_true_eq] at h
  obtain ⟨⟨hbs, hrs⟩, hp⟩ := h
  obtain ⟨b, hb⟩ := Option.isSome_iff_exists.mp hbs
  obtain ⟨r, hr⟩ := Option.isSome_iff_exists.mp hrs
  have h0 : doc.p_values[0]? = some doc.p_values[0] :=
    List.getElem?_eq_getElem (by omega)
  have h1 : doc.p_values[1]? = some doc.p_values[1] :=
    List.getElem?_eq_getElem (by omega)
  have h2 : doc.p_values[2]? = some doc.p_values[2] :=
    List.getElem?_eq_getElem (by omega)
  have h3 : doc.p_values[3]? = some doc.p_values[3] :=
    List.getElem?_eq_getElem (by omega)
  have h4 : doc.p_values[4]? = some doc.p_values[4] :=
    List.getElem?_eq_getElem (by omega)
  have h5 : doc.p_values[5]? = some doc.p_values[5] :=
    List.getElem?_eq_getElem (by omega)
  have h6 : doc.p_values[6]? = some doc.p_values[6] :=
    List.getElem?_eq_getElem (by omega)
  have h7 : doc.p_values[7]? = some doc.p_values[7] :=
    List.getElem?_eq_getElem (by omega)
  simp [applyDoc, hb, hr, h0, h1, h2, h3, h4, h5, h6, h7, hasAllEnrichment]

/-- Blank content short-circuits the enrichment block, leaving the record
untouched. -/
theorem enrichArticle_blank (tabulaKey : Option String)
    (tl : String → TLCall) (d : ArticleData) (c : String)
    (hc : d.content = some c) (he : pyStrip c = "") :
    enrichArticle tabulaKey tl d = d := by
  cases tabulaKey with
  | none => rfl
  | some k => simp [enrichArticle, hc, he]

/-- A successful enrichment call applies the document assignments. -/
theorem enrichArticle_ok (k : String) (tl : String → TLCall)
    (d : ArticleData) (c : String) (doc : TLDoc)
    (hc : d.content = some c) (hne : pyStrip c ≠ "")
    (htl : tl (pyStrip c) = TLCall.ok doc) :
    enrichArticle (some k) tl d = applyDoc doc d := by
  simp [enrichArticle, hc, hne, htl]

/-- The upserts of a successful `sync_items` run are exactly the
per-article enriched records, in order. -/
theorem upsertDatas_sync_items (fetch : Params → FetchResult)
    (headers : Headers) (params : Params) (state : StateMap)
    (topic : String) (key : Option String) (tl : String → TLCall)
    (articles : List RawArticle)
    (hb : fetch params = FetchResult.body (some articles)) :
    upsertDatas (sync_items fetch headers params state topic key tl).1 =
      articles.map (fun a => enrichArticle key tl (mkData topic a)) := by
  simp [sync_items, hb]

/-- A `sync_items` run whose fetch succeeds raises nothing. -/
theorem sync_items_ok (fetch : Params → FetchResult) (headers : Headers)
    (params : Params) (state : StateMap) (topic : String)
    (key : Option String) (tl : String → TLCall)
    (articles : List RawArticle)
    (hb : fetch params = FetchResult.body (some articles)) :
    (sync_items fetch headers params state topic key tl).2 = none := by
  simp [sync_items, hb]

/-- Every enrichment outcome either leaves the fresh record untouched or
applies the document assignments of a successful call. -/
theorem enrichArticle_mkData_cases (key : Option String)
    (tl : String → TLCall) (topic : String) (a : RawArticle) :
    enrichArticle key tl (mkData topic a) = mkData topic a ∨
    ∃ c doc, tl (pyStrip c) = TLCall.ok doc ∧
      enrichArticle key tl (mkData topic a) = applyDoc doc (mkData topic a) := by
  cases key with
  | none => left; rfl
  | some k =>
    have hcc : (mkData topic a).content = a.content := rfl
    cases hc : a.content with
    | none => left; simp [enrichArticle, mkData, hc]
    | some c =>
      by_cases he : pyStrip c = ""
      · left; exact enrichArticle_blank _ tl _ c (hcc.trans hc) he
      · cases htl : tl (pyStrip c) with
        | ok doc =>
          right
          exact ⟨c, doc, htl, enrichArticle_ok k tl _ c doc (hcc.trans hc) he htl⟩
        | netError e => left; simp [enrichArticle, mkData, hc, he, htl]
        | httpError e => left; simp [enrichArticle, mkData, hc, he, htl]
        | badShape e => left; simp [enrichArticle, mkData, hc, he, htl]

/-- C2: enrichment failures never propagate — whatever the enrichment
oracle and credential do, a batch whose fetch succeeded is emitted in
full, one upsert per raw article; and in a batch where exactly the `i`-th
article has blank content (all others enriching successfully), every
article is upserted, the `i`-th record carries no enrichment fields, and
every other record carries all of them. -/
theorem c2_partial_failure_isolation (fetch : Params → FetchResult)
    (headers : Headers) (params : Params) (state : StateMap)
    (topic : String) (articles : List RawArticle)
    (hb : fetch params = FetchResult.body (some articles))
    (key : String) (tl : String → TLCall) (i : Nat)
    (hblank : ∃ a, articles[i]? = some a ∧
      ∃ c, a.content = some c ∧ pyStrip c = "")
    (hrest : ∀ j a, j ≠ i → articles[j]? = some a →
      ∃ c, a.content = some c ∧ pyStrip c ≠ "" ∧
        ∃ doc, tl (pyStrip c) = TLCall.ok doc ∧ completeDoc doc = true) :
    (∀ (key2 : Option String) (tl2 : String → TLCall),
      (sync_items fetch headers params state topic key2 tl2).2 = none ∧
      (upsertDatas
        (sync_items fetch headers params state topic key2 tl2).1).length =
        articles.length) ∧
    (∀ d, (upsertDatas
        (sync_items fetch headers params state topic (some key) tl).1)[i]? =
          some d →
      hasNoEnrichment d = true) ∧
    (∀ j d, j ≠ i →
      (upsertDatas
        (sync_items fetch headers params state topic (some key) tl).1)[j]? =
          some d →
      hasAllEnrichment d = true) := by
  refine ⟨fun key2 tl2 => ⟨sync_items_ok _ _ _ _ _ _ _ _ hb, ?_⟩, ?_, ?_⟩
  · rw [upsertDatas_sync_items _ _ _ _ _ _ _ _ hb, List.length_map]
  · intro d hd
    rw [upsertDatas_sync_items _ _ _ _ _ _ _ _ hb, List.getElem?_map] at hd
    obtain ⟨a, ha, c, hc, he⟩ := hblank
    rw [ha] at hd
    simp only [Option.map_some', Option.some.injEq] at hd
    rw [← hd, enrichArticle_blank _ tl _ c (by simpa [mkData] using hc) he]
    exact hasNoEnrichment_mkData topic a
  · intro j d hj hd
    rw [upsertDatas_sync_items _ _ _ _ _ _ _ _ hb, List.getElem?_map] at hd
    cases ha : articles[j]? with
    | none => rw [ha] at hd; cases hd
    | some a =>
      rw [ha] at hd
      simp only [Option.map_some', Option.some.injEq] at hd
      obtain ⟨c, hc, hne, doc, htl, hcomp⟩ := hrest j a hj ha
      rw [← hd,
        enrichArticle_ok key tl _ c doc (by simpa [mkData] using hc) hne htl]
      exact applyDoc_complete doc _ hcomp

/-- Witness for C2: a three-article batch whose middle article has
whitespace-only content; all three are upserted, only the middle one
lacks enrichment. -/
theorem c2_partial_failure_isolation_witness :
    (∃ a, c2Articles[1]? = some a ∧
      ∃ c, a.content = some c ∧ pyStrip c = "") ∧
    ((∀ (key2 : Option String) (tl2 : String → TLCall),
      (sync_items (fun _ => FetchResult.body (some c2Articles))
        (mkHeaders demoConf)
        (topicParams
          (mkParams demoConf "2024-01-08T12:00:00" "2024-01-10T12:00:00")
          "economy")
        demoState "economy" key2 tl2).2 = none ∧
      (upsertDatas
        (sync_items (fun _ => FetchResult.body (some c2Articles))
          (mkHeaders demoConf)
          (topicParams
            (mkParams demoConf "2024-01-08T12:00:00" "2024-01-10T12:00:00")
            "economy")
          demoState "economy" key2 tl2).1).length = c2Articles.length) ∧
    (∀ d, (upsertDatas
        (sync_items (fun _ => FetchResult.body (some c2Articles))
          (mkHeaders demoConf)
          (topicParams
            (mkParams demoConf "2024-01-08T12:00:00" "2024-01-10T12:00:00")
            "economy")
          demoState "economy" (some "tk") c2Tl).1)[1]? = some d →
      hasNoEnrichment d = true) ∧
    (∀ j d, j ≠ 1 →
      (upsertDatas
        (sync_items (fun _ => FetchResult.body (some c2Articles))
          (mkHeaders demoConf)
          (topicParams
            (mkParams demoConf "2024-01-08T12:00:00" "2024-01-10T12:00:00")
            "economy")
          demoState "economy" (some "tk") c2Tl).1)[j]? = some d →
      hasAllEnrichment d = true)) :=
  ⟨⟨blankArticle, rfl, " ", rfl, by decide⟩,
    c2_partial_failure_isolation _ (mkHeaders demoConf) _ demoState
      "economy" c2Articles rfl "tk" c2Tl 1
      ⟨blankArticle, rfl, " ", rfl, by decide⟩
      (by
        intro j a hj hja
        have hjlt : j < c2Articles.length := by
          by_contra hge
          rw [List.getElem?_eq_none (Nat.le_of_not_lt hge)] at hja
          exact Option.noConfusion hja
        have hj3 : j < 3 := hjlt
        interval_cases j
        · obtain rfl : demoArticle = a := by injection hja
          exact ⟨"body text", rfl, by decide, demoDoc, rfl, by decide⟩
        · exact absurd rfl hj
        · obtain rfl : demoArticle = a := by injection hja
          exact ⟨"body text", rfl, by decide, demoDoc, rfl, by decide⟩)⟩

/-- C3 counterexample: the enrichment service answers with a document
that has `blue`, `red` but only three `p_values`; the emitted record
keeps the assignments made before the failing subscript — a partial set
of enrichment fields, refuting all-or-nothing for malformed response
shapes. -/
theorem c3_counterexample :
    upsertDatas shortDocEvents = [shortDocData] ∧
    hasAllEnrichment shortDocData = false ∧
    hasNoEnrichment shortDocData = false := by
  refine ⟨by decide, by decide, by decide⟩

/-- C3 amended: all-or-nothing holds for every emitted record provided
every successful enrichment response carries a complete document (`blue`,
`red`, and at least 8 `p_values`); a success response missing one of
those pieces can leave a partial prefix of the fields, as the
counterexample shows. -/
theorem c3_enrichment_all_or_nothing_amended (fetch : Params → FetchResult)
    (headers : Headers) (params : Params) (state : StateMap)
    (topic : String) (key : Option String) (tl : String → TLCall)
    (articles : List RawArticle)
    (hb : fetch params = FetchResult.body (some articles))
    (hwf : ∀ c doc, tl c = TLCall.ok doc → completeDoc doc = true) :
    ∀ d ∈ upsertDatas (sync_items fetch headers params state topic key tl).1,
      hasAllEnrichment d = true ∨ hasNoEnrichment d = true := by
  intro d hd
  rw [upsertDatas_sync_items _ _ _ _ _ _ _ _ hb, List.mem_map] at hd
  obtain ⟨a, _, rfl⟩ := hd
  rcases enrichArticle_mkData_cases key tl topic a with hcase | ⟨c, doc, htl, hcase⟩
  · right; rw [hcase]; exact hasNoEnrichment_mkData topic a
  · left; rw [hcase]; exact applyDoc_complete doc _ (hwf _ _ htl)

/-- Witness for C3's amended claim: with a complete-document oracle, the
single emitted record carries the full enrichment set. -/
theorem c3_enrichment_all_or_nothing_amended_witness :
    (∀ c doc, c2Tl c = TLCall.ok doc → completeDoc doc = true) ∧
    (∀ d ∈ upsertDatas
        (sync_items (fun _ => FetchResult.body (some [demoArticle]))
          (mkHeaders demoConf)
          (topicParams
            (mkParams demoConf "2024-01-08T12:00:00" "2024-01-10T12:00:00")
            "economy")
          demoState "economy" (some "tk") c2Tl).1,
      hasAllEnrichment d = true ∨ hasNoEnrichment d = true) :=
  ⟨fun _ doc h => by injection h with h2; rw [← h2]; decide,
    c3_enrichment_all_or_nothing_amended _ (mkHeaders demoConf) _ demoState
      "economy" (some "tk") c2Tl [demoArticle] rfl
      (fun _ doc h => by injection h with h2; rw [← h2]; decide)⟩

/-- Once connected, the watermark lookup yields `.ok none` (helper form
of the cursor-subscripting behaviour, used by the run-level proofs). -/
theorem get_last_published_at_connected (cur : SnowCursor) :
    get_last_published_at (SnowWorld.connected cur) = Except.ok none := rfl

/-- A failing fetch yields exactly the request event and the error. -/
theorem sync_items_eq_fail (fetch : Params → FetchResult) (headers : Headers)
    (params : Params) (state : StateMap) (topic : String)
    (key : Option String) (tl : String → TLCall) (e : PyError)
    (he : fetchError (fetch params) = some e) :
    sync_items fetch headers params state topic key tl =
      ([Event.apiRequest BASE_API_URL headers params], some e) := by
  cases hf : fetch params with
  | fail e2 =>
    rw [hf] at he
    injection he with he
    subst he
    simp [sync_items, hf]
  | body arts =>
    cases arts with
    | none =>
      rw [hf] at he
      injection he with he
      subst he
      simp [sync_items, hf]
    | some l =>
      rw [hf] at he
      simp [fetchError] at he

/-- A successful fetch yields the request, the per-article upserts, and
the input-state checkpoint, raising nothing. -/
theorem sync_items_eq_ok (fetch : Params → FetchResult) (headers : Headers)
    (params : Params) (state : StateMap) (topic : String)
    (key : Option String) (tl : String → TLCall)
    (articles : List RawArticle)
    (hb : fetch params = FetchResult.body (some articles)) :
    sync_items fetch headers params state topic key tl =
      (Event.apiRequest BASE_API_URL headers params ::
        articles.map (fun a =>
          Event.upsert "article" (enrichArticle key tl (mkData topic a)))
        ++ [Event.checkpoint state], none) := by
  simp [sync_items, hb]

/-- Unfolding equation for the topic loop on a nonempty topic list. -/
theorem runTopics_cons (fetch : Params → FetchResult) (headers : Headers)
    (base : Params) (state : StateMap) (key : Option String)
    (tl : String → TLCall) (t : String) (ts : List String) :
    runTopics fetch headers base state key tl (t :: ts) =
      match sync_items fetch headers (topicParams base t) state t key tl with
      | (evs, some e) => (evs, some e)
      | (evs, none) =>
        (evs ++ (runTopics fetch headers base state key tl ts).1,
          (runTopics fetch headers base state key tl ts).2) := rfl

/-- A fully successful topic loop yields one input-state checkpoint per
topic and one request per topic, in order. -/
theorem runTopics_ok_trace (fetch : Params → FetchResult) (headers : Headers)
    (base : Params) (state : StateMap) (key : Option String)
    (tl : String → TLCall) :
    ∀ topics : List String,
      (runTopics fetch headers base state key tl topics).2 = none →
      checkpointStates (runTopics fetch headers base state key tl topics).1 =
        List.replicate topics.length state ∧
      requestParams (runTopics fetch headers base state key tl topics).1 =
        topics.map (topicParams base) := by
  intro topics
  induction topics with
  | nil => intro _; exact ⟨rfl, rfl⟩
  | cons t ts ih =>
    intro h
    rw [runTopics_cons] at h ⊢
    cases hf : fetch (topicParams base t) with
    | fail e =>
      rw [sync_items_eq_fail fetch headers _ state t key tl e
        (by rw [hf]; rfl)] at h
      simp at h
    | body arts =>
      cases arts with
      | none =>
        rw [sync_items_eq_fail fetch headers _ state t key tl
          typeErrorNoneIterable (by rw [hf]; rfl)] at h
        simp at h
      | some l =>
        rw [sync_items_eq_ok fetch headers _ state t key tl l hf] at h ⊢
        simp only at h
        obtain ⟨ihc, ihr⟩ := ih h
        constructor
        · simp [ihc, List.replicate_succ]
        · simp [ihr]

/-- If the `k`-th topic's fetch is the first to fail, the loop raises
that error and the trace carries exactly `k` input-state checkpoints
(one per completed topic). -/
theorem runTopics_fail_trace (fetch : Params → FetchResult)
    (headers : Headers) (base : Params) (state : StateMap)
    (key : Option String) (tl : String → TLCall) :
    ∀ (topics : List String) (k : Nat) (hk : k < topics.length)
      (e : PyError),
      fetchError (fetch (topicParams base (topics.get ⟨k, hk⟩))) = some e →
      (∀ j (hj : j < k),
        fetchError
          (fetch (topicParams base (topics.get ⟨j, Nat.lt_trans hj hk⟩))) =
          none) →
      (runTopics fetch headers base state key tl topics).2 = some e ∧
      checkpointStates (runTopics fetch headers base state key tl topics).1 =
        List.replicate k state := by
  intro topics
  induction topics with
  | nil =>
    intro k hk
    exact absurd hk (by simp)
  | cons t ts ih =>
    intro k hk e hfail hpre
    cases k with
    | zero =>
      have hf0 : fetchError (fetch (topicParams base t)) = some e := hfail
      rw [runTopics_cons,
        sync_items_eq_fail fetch headers _ state t key tl e hf0]
      exact ⟨rfl, rfl⟩
    | succ k =>
      have h0 : fetchError (fetch (topicParams base t)) = none :=
        hpre 0 (Nat.succ_pos k)
      cases hf : fetch (topicParams base t) with
      | fail e2 => rw [hf] at h0; simp [fetchError] at h0
      | body arts =>
        cases arts with
        | none => rw [hf] at h0; simp [fetchError] at h0
        | some l =>
          rw [runTopics_cons,
            sync_items_eq_ok fetch headers _ state t key tl l hf]
          have hk2 : k < ts.length := Nat.lt_of_succ_lt_succ hk
          have hrec := ih k hk2 e hfail
            (fun j hj => hpre (j + 1) (Nat.succ_lt_succ hj))
          simp only
          refine ⟨hrec.1, ?_⟩
          simp [hrec.2, List.replicate_succ]

/-- Run-level unfolding once the destination connection succeeds: the
lookup contributes `none`, and the run is the topic loop plus (on
success) the final fresh-state checkpoint. -/
theorem update_eq_conn (conf : Conf) (state : StateMap) (w : World)
    (cur : SnowCursor) (hsnow : w.snow = SnowWorld.connected cur) :
    update conf state w =
      match query_start_of [dictGet state "to_ts", none, some w.safety] with
      | none => ([], some valueErrorEmptyMin)
      | some qs =>
        match runTopics w.fetch (mkHeaders conf) (mkParams conf qs w.now)
            state conf.TABULA_KEY w.tl (pySplitComma conf.TOPIC) with
        | (evs, some e) => (evs, some (wrapRuntimeError e))
        | (evs, none) =>
          (evs ++ [Event.checkpoint [("to_ts", w.now)]], none) := by
  have hl : get_last_published_at w.snow = Except.ok none := by
    rw [hsnow]
    exact get_last_published_at_connected cur
  cases hq : query_start_of [dictGet state "to_ts", none, some w.safety] with
  | none => simp [update, hl, resolveWindow, hq]
  | some qs => simp only [update, hl, resolveWindow, hq, mkParams]

/-- Run-level unfolding of a connected run whose window resolved. -/
theorem update_eq_conn_some (conf : Conf) (state : StateMap) (w : World)
    (cur : SnowCursor) (qs : String)
    (hsnow : w.snow = SnowWorld.connected cur)
    (hq : query_start_of [dictGet state "to_ts", none, some w.safety] =
      some qs) :
    update conf state w =
      match runTopics w.fetch (mkHeaders conf) (mkParams conf qs w.now)
          state conf.TABULA_KEY w.tl (pySplitComma conf.TOPIC) with
      | (evs, some e) => (evs, some (wrapRuntimeError e))
      | (evs, none) =>
        (evs ++ [Event.checkpoint [("to_ts", w.now)]], none) := by
  rw [update_eq_conn conf state w cur hsnow, hq]

/-- A failed destination connection aborts the run unwrapped, before any
event is yielded. -/
theorem update_eq_connectFail (conf : Conf) (state : StateMap) (w : World)
    (e : PyError) (hsnow : w.snow = SnowWorld.connectFail e) :
    update conf state w = ([], some e) := by
  have hl : get_last_published_at w.snow = Except.error e := by
    rw [hsnow]
    rfl
  simp [update, hl]

/-- Decomposition of any successful run. -/
theorem update_success_shape (conf : Conf) (state : StateMap) (w : World)
    (hsucc : (update conf state w).2 = none) :
    ∃ cur qs evs,
      w.snow = SnowWorld.connected cur ∧
      query_start_of [dictGet state "to_ts", none, some w.safety] = some qs ∧
      runTopics w.fetch (mkHeaders conf) (mkParams conf qs w.now) state
        conf.TABULA_KEY w.tl (pySplitComma conf.TOPIC) = (evs, none) ∧
      update conf state w =
        (evs ++ [Event.checkpoint [("to_ts", w.now)]], none) := by
  cases hsnow : w.snow with
  | connectFail e =>
    rw [update_eq_connectFail conf state w e hsnow] at hsucc
    cases hsucc
  | connected cur =>
    cases hq : query_start_of [dictGet state "to_ts", none, some w.safety] with
    | none =>
      have hu : update conf state w = ([], some valueErrorEmptyMin) := by
        rw [update_eq_conn conf state w cur hsnow, hq]
      rw [hu] at hsucc
      cases hsucc
    | some qs =>
      rcases hr : runTopics w.fetch (mkHeaders conf)
          (mkParams conf qs w.now) state conf.TABULA_KEY w.tl
          (pySplitComma conf.TOPIC) with ⟨evs, err⟩
      cases err with
      | some e =>
        have hu : update conf state w = (evs, some (wrapRuntimeError e)) := by
          rw [update_eq_conn_some conf state w cur qs hsnow hq, hr]
        rw [hu] at hsucc
        cases hsucc
      | none =>
        have hu : update conf state w =
            (evs ++ [Event.checkpoint [("to_ts", w.now)]], none) := by
          rw [update_eq_conn_some conf state w cur qs hsnow hq, hr]
        exact ⟨cur, qs, evs, rfl, rfl, hr, hu⟩

/-- C6: on a fully successful run the last emitted operation is the final
checkpoint and its state is exactly the singleton mapping
`to_ts ↦ query_end` — the prior state is replaced wholesale, no other key
of the input state being merged into it. -/
theorem c6_final_checkpoint_wholesale (conf : Conf) (state : StateMap)
    (w : World) (hsucc : (update conf state w).2 = none) :
    (update conf state w).1.getLast? =
      some (Event.checkpoint [("to_ts", w.now)]) := by
  obtain ⟨cur, qs, evs, hsnow, hq, hr, hu⟩ :=
    update_success_shape conf state w hsucc
  rw [hu]
  exact List.getLast?_concat _

/-- Witness for C6: a successful two-topic run ends with the final
checkpoint `to_ts ↦ query_end`, the input state's extra key dropped. -/
theorem c6_final_checkpoint_wholesale_witness :
    (update demoConf demoState demoWorld).2 = none ∧
    (update demoConf demoState demoWorld).1.getLast? =
      some (Event.checkpoint [("to_ts", "2024-01-10T12:00:00")]) :=
  ⟨by decide,
    c6_final_checkpoint_wholesale demoConf demoState demoWorld (by decide)⟩

/-- C7: on a fully successful run, each topic contributes exactly one
intermediate checkpoint carrying the input state unchanged (followed by
the single final fresh-state checkpoint). -/
theorem c7_intermediate_checkpoints_carry_input_state (conf : Conf)
    (state : StateMap) (w : World)
    (hsucc : (update conf state w).2 = none) :
    checkpointStates (update conf state w).1 =
      List.replicate (pySplitComma conf.TOPIC).length state ++
        [[("to_ts", w.now)]] := by
  obtain ⟨cur, qs, evs, hsnow, hq, hr, hu⟩ :=
    update_success_shape conf state w hsucc
  have htr := (runTopics_ok_trace w.fetch (mkHeaders conf)
      (mkParams conf qs w.now) state conf.TABULA_KEY w.tl
      (pySplitComma conf.TOPIC) (by rw [hr])).1
  simp only [hr] at htr
  rw [hu]
  simp [htr]

/-- Witness for C7: the successful two-topic run emits exactly two
input-state checkpoints then the final one. -/
theorem c7_intermediate_checkpoints_witness :
    (update demoConf demoState demoWorld).2 = none ∧
    checkpointStates (update demoConf demoState demoWorld).1 =
      List.replicate (pySplitComma demoConf.TOPIC).length demoState ++
        [[("to_ts", "2024-01-10T12:00:00")]] :=
  ⟨by decide,
    c7_intermediate_checkpoints_carry_input_state demoConf demoState
      demoWorld (by decide)⟩

/-- Every request issued by the topic loop is the shared params dict with
`q` set to one of the topics. -/
theorem runTopics_request_shape (fetch : Params → FetchResult)
    (headers : Headers) (base : Params) (state : StateMap)
    (key : Option String) (tl : String → TLCall) :
    ∀ (topics : List String) (p : Params),
      p ∈ requestParams (runTopics fetch headers base state key tl topics).1 →
      ∃ t, p = topicParams base t := by
  intro topics
  induction topics with
  | nil => intro p h; cases h
  | cons t ts ih =>
    intro p h
    rw [runTopics_cons] at h
    cases hf : fetch (topicParams base t) with
    | fail e =>
      rw [sync_items_eq_fail fetch headers _ state t key tl e
        (by rw [hf]; rfl)] at h
      simp at h
      exact ⟨t, h⟩
    | body arts =>
      cases arts with
      | none =>
        rw [sync_items_eq_fail fetch headers _ state t key tl
          typeErrorNoneIterable (by rw [hf]; rfl)] at h
        simp at h
        exact ⟨t, h⟩
      | some l =>
        rw [sync_items_eq_ok fetch headers _ state t key tl l hf] at h
        simp at h
        rcases h with h | h
        · exact ⟨t, h⟩
        · exact ih p h

/-- Every request a run issues carries the one shared params dict (with
some topic as `q`), whatever the run's outcome. -/
theorem update_request_shape (conf : Conf) (state : StateMap) (w : World)
    (p : Params) (h : p ∈ requestParams (update conf state w).1) :
    ∃ qs t, p = topicParams (mkParams conf qs w.now) t := by
  cases hsnow : w.snow with
  | connectFail e =>
    rw [update_eq_connectFail conf state w e hsnow] at h
    cases h
  | connected cur =>
    cases hq : query_start_of [dictGet state "to_ts", none, some w.safety] with
    | none =>
      have hu : update conf state w = ([], some valueErrorEmptyMin) := by
        rw [update_eq_conn conf state w cur hsnow, hq]
      rw [hu] at h
      cases h
    | some qs =>
      rcases hr : runTopics w.fetch (mkHeaders conf)
          (mkParams conf qs w.now) state conf.TABULA_KEY w.tl
          (pySplitComma conf.TOPIC) with ⟨evs, err⟩
      have hm : p ∈ requestParams evs := by
        cases err with
        | some e =>
          have hu : update conf state w =
              (evs, some (wrapRuntimeError e)) := by
            rw [update_eq_conn_some conf state w cur qs hsnow hq, hr]
          rw [hu] at h
          exact h
        | none =>
          have hu : update conf state w =
              (evs ++ [Event.checkpoint [("to_ts", w.now)]], none) := by
            rw [update_eq_conn_some conf state w cur qs hsnow hq, hr]
          rw [hu] at h
          rw [requestParams_append] at h
          rcases List.mem_append.mp h with h2 | h2
          · exact h2
          · simp [requestParams] at h2
      obtain ⟨t, ht⟩ := runTopics_request_shape w.fetch (mkHeaders conf)
        (mkParams conf qs w.now) state conf.TABULA_KEY w.tl
        (pySplitComma conf.TOPIC) p (by rw [hr]; exact hm)
      exact ⟨qs, t, ht⟩

/-- C8: every news-API request any run issues asks for page 1 (there is
no pagination loop), and on a successful run exactly one request is
issued per configured topic, in order, with parameters
`from = query_start`, `to = query_end`, `language = en`,
`sortBy = publishedAt`, `pageSize` from the configuration and `q` the
topic. -/
theorem c8_one_page1_request_per_topic (conf : Conf) (state : StateMap)
    (w : World) :
    (∀ p ∈ requestParams (update conf state w).1, p.page = "1") ∧
    ((update conf state w).2 = none →
      ∃ last_published_at qs,
        get_last_published_at w.snow = Except.ok last_published_at ∧
        query_start_of [dictGet state "to_ts", last_published_at,
          some w.safety] = some qs ∧
        requestParams (update conf state w).1 =
          (pySplitComma conf.TOPIC).map (fun t =>
            { «from» := qs, «to» := w.now, page := "1", language := "en",
              sortBy := "publishedAt", pageSize := conf.PAGE_SIZE,
              q := some t })) := by
  constructor
  · intro p hp
    obtain ⟨qs, t, ht⟩ := update_request_shape conf state w p hp
    rw [ht]
    rfl
  · intro hsucc
    obtain ⟨cur, qs, evs, hsnow, hq, hr, hu⟩ :=
      update_success_shape conf state w hsucc
    refine ⟨none, qs, ?_, hq, ?_⟩
    · rw [hsnow]
      exact get_last_published_at_connected cur
    · have htr := (runTopics_ok_trace w.fetch (mkHeaders conf)
          (mkParams conf qs w.now) state conf.TABULA_KEY w.tl
          (pySplitComma conf.TOPIC) (by rw [hr])).2
      simp only [hr] at htr
      rw [hu]
      simp only [requestParams_append, htr]
      simp [topicParams, mkParams]

/-- Witness for C8: the successful two-topic run issues exactly the two
page-1 requests. -/
theorem c8_one_page1_request_per_topic_witness :
    (update demoConf demoState demoWorld).2 = none ∧
    (∃ last_published_at qs,
      get_last_published_at demoWorld.snow = Except.ok last_published_at ∧
      query_start_of [dictGet demoState "to_ts", last_published_at,
        some demoWorld.safety] = some qs ∧
      requestParams (update demoConf demoState demoWorld).1 =
        (pySplitComma demoConf.TOPIC).map (fun t =>
          { «from» := qs, «to» := demoWorld.now, page := "1",
            language := "en", sortBy := "publishedAt",
            pageSize := demoConf.PAGE_SIZE, q := some t })) :=
  ⟨by decide,
    (c8_one_page1_request_per_topic demoConf demoState demoWorld).2
      (by decide)⟩

/-- C4 counterexample: a run whose second topic's fetch fails raises a
wrapped error, yet one checkpoint operation (the first topic's
intermediate input-state checkpoint) has already been emitted in that
run — refuting "no checkpoint operation is emitted for that run". -/
theorem c4_counterexample :
    fetchError (c4World.fetch (topicParams
      (mkParams demoConf "2024-01-08T12:00:00" "2024-01-10T12:00:00")
      "sports")) = some c4FailErr ∧
    (update demoConf demoState c4World).2.isSome = true ∧
    (checkpointStates (update demoConf demoState c4World).1).length = 1 :=
  ⟨by decide, by decide, by decide⟩

/-- C4 amended: when the `k`-th topic's news-API request is the first to
fail, the failure propagates uncaught out of `sync_items` and the
orchestrator re-raises it as a single `RuntimeError` carrying the original
message and stack trace; no final (fresh-state) checkpoint is emitted —
the only checkpoints emitted are the intermediate input-state checkpoints
of the `k` topics completed before the failure (none when the first topic
fails). -/
theorem c4_fatal_fetch_failure_wrapped (conf : Conf) (state : StateMap)
    (w : World) (cur : SnowCursor) (qs : String) (k : Nat) (e : PyError)
    (hsnow : w.snow = SnowWorld.connected cur)
    (hq : query_start_of [dictGet state "to_ts", none, some w.safety] =
      some qs)
    (hk : k < (pySplitComma conf.TOPIC).length)
    (hfail : fetchError (w.fetch (topicParams (mkParams conf qs w.now)
      ((pySplitComma conf.TOPIC).get ⟨k, hk⟩))) = some e)
    (hpre : ∀ j (hj : j < k),
      fetchError (w.fetch (topicParams (mkParams conf qs w.now)
        ((pySplitComma conf.TOPIC).get ⟨j, Nat.lt_trans hj hk⟩))) = none) :
    (update conf state w).2 = some (wrapRuntimeError e) ∧
    checkpointStates (update conf state w).1 = List.replicate k state := by
  have hft := runTopics_fail_trace w.fetch (mkHeaders conf)
    (mkParams conf qs w.now) state conf.TABULA_KEY w.tl
    (pySplitComma conf.TOPIC) k hk e hfail hpre
  rcases hr : runTopics w.fetch (mkHeaders conf) (mkParams conf qs w.now)
      state conf.TABULA_KEY w.tl (pySplitComma conf.TOPIC) with ⟨evs, err⟩
  simp only [hr] at hft
  obtain ⟨h2, hc⟩ := hft
  subst h2
  have hu : update conf state w = (evs, some (wrapRuntimeError e)) := by
    rw [update_eq_conn_some conf state w cur qs hsnow hq, hr]
  rw [hu]
  exact ⟨rfl, hc⟩

/-- Witness for C4's amended claim: with two topics of which the second
fails, the run raises the wrapped error and emits exactly the first
topic's intermediate input-state checkpoint. -/
theorem c4_fatal_fetch_failure_wrapped_witness :
    query_start_of [dictGet demoState "to_ts", none, some c4World.safety] =
      some "2024-01-08T12:00:00" ∧
    (update demoConf demoState c4World).2 =
      some (wrapRuntimeError c4FailErr) ∧
    checkpointStates (update demoConf demoState c4World).1 =
      List.replicate 1 demoState := by
  have hk : 1 < (pySplitComma demoConf.TOPIC).length := by decide
  have h := c4_fatal_fetch_failure_wrapped demoConf demoState c4World
    { rows := [] } "2024-01-08T12:00:00" 1 c4FailErr rfl (by decide) hk
    (by decide :
      fetchError (c4World.fetch (topicParams
        (mkParams demoConf "2024-01-08T12:00:00" c4World.now)
        "sports")) = some c4FailErr)
    (fun j hj => by
      have h0 : j = 0 := Nat.lt_one_iff.mp hj
      subst h0
      exact (by decide :
        fetchError (c4World.fetch (topicParams
          (mkParams demoConf "2024-01-08T12:00:00" c4World.now)
          "economy")) = none))
  exact ⟨by decide, h.1, h.2⟩

/-- Every upsert yielded by the topic loop targets the `article` table. -/
theorem upsert_table_runTopics (fetch : Params → FetchResult)
    (headers : Headers) (base : Params) (state : StateMap)
    (key : Option String) (tl : String → TLCall) :
    ∀ (topics : List String) (tbl : String) (d : ArticleData),
      Event.upsert tbl d ∈
        (runTopics fetch headers base state key tl topics).1 →
      tbl = "article" := by
  intro topics
  induction topics with
  | nil => intro tbl d h; cases h
  | cons t ts ih =>
    intro tbl d h
    rw [runTopics_cons] at h
    cases hf : fetch (topicParams base t) with
    | fail e =>
      rw [sync_items_eq_fail fetch headers _ state t key tl e
        (by rw [hf]; rfl)] at h
      simp at h
    | body arts =>
      cases arts with
      | none =>
        rw [sync_items_eq_fail fetch headers _ state t key tl
          typeErrorNoneIterable (by rw [hf]; rfl)] at h
        simp at h
      | some l =>
        rw [sync_items_eq_ok fetch headers _ state t key tl l hf] at h
        simp at h
        rcases h with ⟨a, ha, h1, h2⟩ | h
        · first
          | exact h1
          | exact h1.symm
        · exact ih tbl d h

/-- C10: every emitted upsert targets the single `article` table and its
record always carries the seven base content fields plus the `topic` key,
while the schema operation declares exactly the seventeen columns
`source, published_at, author, title, description, content, url, blue,
red, p0..p7` with primary key `(source, published_at)` — and `topic` is
not among them. -/
theorem c10_upsert_shape_and_schema (conf : Conf) (state : StateMap)
    (w : World) :
    (∀ tbl d, Event.upsert tbl d ∈ (update conf state w).1 →
      tbl = "article" ∧
      ∀ k ∈ ["topic", "source", "published_at", "author", "title",
        "description", "content", "url"], k ∈ dataKeys d) ∧
    (∀ ts ∈ schema conf,
      ts.table = "article" ∧
      ts.primary_key = ["source", "published_at"] ∧
      ts.columns.map Prod.fst =
        ["source", "published_at", "author", "title", "description",
         "content", "url", "blue", "red", "p0", "p1", "p2", "p3", "p4",
         "p5", "p6", "p7"] ∧
      "topic" ∉ ts.columns.map Prod.fst) := by
  constructor
  · intro tbl d h
    have htbl : tbl = "article" := by
      cases hsnow : w.snow with
      | connectFail e =>
        rw [update_eq_connectFail conf state w e hsnow] at h
        cases h
      | connected cur =>
        cases hq : query_start_of
            [dictGet state "to_ts", none, some w.safety] with
        | none =>
          have hu : update conf state w = ([], some valueErrorEmptyMin) := by
            rw [update_eq_conn conf state w cur hsnow, hq]
          rw [hu] at h
          cases h
        | some qs =>
          rcases hr : runTopics w.fetch (mkHeaders conf)
              (mkParams conf qs w.now) state conf.TABULA_KEY w.tl
              (pySplitComma conf.TOPIC) with ⟨evs, err⟩
          have hm : Event.upsert tbl d ∈ evs := by
            cases err with
            | some e =>
              have hu : update conf state w =
                  (evs, some (wrapRuntimeError e)) := by
                rw [update_eq_conn_some conf state w cur qs hsnow hq, hr]
              rw [hu] at h
              exact h
            | none =>
              have hu : update conf state w =
                  (evs ++ [Event.checkpoint [("to_ts", w.now)]], none) := by
                rw [update_eq_conn_some conf state w cur qs hsnow hq, hr]
              rw [hu] at h
              rcases List.mem_append.mp h with h2 | h2
              · exact h2
              · simp at h2
          exact upsert_table_runTopics w.fetch (mkHeaders conf)
            (mkParams conf qs w.now) state conf.TABULA_KEY w.tl
            (pySplitComma conf.TOPIC) tbl d (by rw [hr]; exact hm)
    refine ⟨htbl, ?_⟩
    intro k hk
    simp only [dataKeys, List.mem_append]
    left; left; left; left; left; left; left; left; left; left
    exact hk
  · intro ts hts
    have h1 : ts ∈ schema conf := hts
    simp only [schema, List.mem_singleton] at h1
    subst h1
    exact ⟨rfl, rfl, rfl, by decide⟩

/-- Witness for C10: a concrete upsert of the demo run targets `article`
and its record carries the base keys plus `topic`. -/
theorem c10_upsert_shape_and_schema_witness :
    (Event.upsert "article" c10Data ∈
      (update demoConf demoState demoWorld).1) ∧
    ("article" = "article" ∧
      ∀ k ∈ ["topic", "source", "published_at", "author", "title",
        "description", "content", "url"], k ∈ dataKeys c10Data) :=
  ⟨by decide,
    (c10_upsert_shape_and_schema demoConf demoState demoWorld).1
      "article" c10Data (by decide)⟩

end Connector
